import Mathlib

/-!
Verification of the wavenet-solutions-backend access-control and
change-notification core.  The definitions below are a shallow embedding of
the note controllers (`noteController.ts`, `noteCRUDController.ts`,
`noteShareController.ts`, the archive controller, and the shared helpers in
`noteUtils.ts`).  User and note ids are modelled as `Nat`, timestamps as
`Nat`, and each HTTP handler becomes a pure function from its inputs to
either a typed error or the saved note together with the ordered list of
socket events it emits.
-/

namespace WaveNet

/-- Share roles, from the `role` enum of the Share schema in
`models/Note.ts` (`read`, `write`, `owner`). -/
inductive Role
  | read
  | write
  | owner
deriving DecidableEq, Repr

/-- A `sharedWith` entry of a note, from the Share schema in
`models/Note.ts`: the grantee id, a denormalized email, and a role. -/
structure Share where
  userId : Nat
  email : String
  role : Role
deriving DecidableEq, Repr

/-- A note record, from the Note schema in `models/Note.ts` (the revision
with archiving): title, content, creator id, share list, archive state and
the `updatedAt` timestamp maintained by the persistence layer. -/
structure Note where
  id : Nat
  title : String
  content : String
  creator : Nat
  sharedWith : List Share
  isArchived : Bool
  archivedAt : Option Nat
  updatedAt : Nat
deriving DecidableEq, Repr

/-- A user record, from the User schema in `models/User.ts` (the fields the
note controllers use: id, username, unique email). -/
structure User where
  id : Nat
  username : String
  email : String
deriving DecidableEq, Repr

/-- Socket channels used by the controllers: the per-note room
(`io.to(noteId)`), the per-user room (`io.to(userId)`), and the global
broadcast (`io.emit`). -/
inductive Channel
  | noteRoom (noteId : Nat)
  | userRoom (userId : Nat)
  | broadcast
deriving DecidableEq, Repr

/-- An emitted socket event: the channel, the event name, and (for events
named `notification`) the `type` field of the payload, empty otherwise. -/
structure Event where
  channel : Channel
  name : String
  ntype : String
deriving DecidableEq, Repr

/-- The error kinds the handlers report (HTTP status plus message in the
source, abstracted to their kind here). -/
inductive ApiError
  | validationError
  | permissionDenied
  | selfShare
  | userNotFound
  | notShared
  | alreadyArchived
  | notArchived
deriving DecidableEq, Repr

/-- Permission check from `noteUtils.ts` / `noteController.ts`
(`checkPermissions`): the creator always passes; a required role of
`owner` fails for every non-creator; otherwise the requester's share
entry is looked up and its role compared (`read` is satisfied by
read/write/owner, `write` by write/owner). -/
def checkPermissions (note : Note) (authenticatedUserId : Nat)
    (requiredRole : Role) : Bool :=
  if note.creator = authenticatedUserId then
    true
  else if requiredRole = Role.owner then
    false
  else
    match note.sharedWith.find? (fun s => decide (s.userId = authenticatedUserId)) with
    | none => false
    | some shareInfo =>
      match requiredRole with
      | Role.read =>
        decide (shareInfo.role = Role.read) || decide (shareInfo.role = Role.write)
          || decide (shareInfo.role = Role.owner)
      | Role.write =>
        decide (shareInfo.role = Role.write) || decide (shareInfo.role = Role.owner)
      | Role.owner => false

/-- Document-store save with Mongoose `timestamps: true` semantics: a
`save()` on a document with no modified paths performs no write and leaves
`updatedAt` alone; otherwise the write bumps `updatedAt` to the current
time.  Field assignments in the handlers that re-assign the stored value
leave the document unmodified, which structural equality captures here. -/
def saveNote (old new : Note) (now : Nat) : Note :=
  if new = old then old else { new with updatedAt := now }

/-- Raw body of a share request (`POST /:id/share`). -/
structure ShareBody where
  email : String
  role : String
deriving DecidableEq, Repr

/-- The Joi `shareNoteSchema` of `noteUtils.ts` / `noteController.ts`:
`role` must be the literal string `read` or `write`, any other value is a
validation error (the claims do not depend on the email-format check). -/
def shareNoteSchemaValidate (body : ShareBody) : Option (String × Role) :=
  if body.role = "read" then some (body.email, Role.read)
  else if body.role = "write" then some (body.email, Role.write)
  else none

/-- In-place role update of the first share entry matching `uid`,
mirroring `note.sharedWith[existingShareIndex].role = role` in
`noteShareController.shareNote`. -/
def setRoleFirst : List Share → Nat → Role → List Share
  | [], _, _ => []
  | s :: rest, uid, r =>
    if s.userId = uid then { s with role := r } :: rest
    else s :: setRoleFirst rest uid r

/-- In-place role and email update of the first share entry matching
`uid`, mirroring the `existingShareIndex` branch of
`noteController.shareNote` (which also refreshes the denormalized
email). -/
def setRoleEmailFirst : List Share → Nat → Role → String → List Share
  | [], _, _, _ => []
  | s :: rest, uid, r, e =>
    if s.userId = uid then { s with role := r, email := e } :: rest
    else s :: setRoleEmailFirst rest uid r e

/-- `shareNote` of `noteShareController.ts`: validate the body, require
`write` permission, reject when the target email equals the acting
user's own email, look the target up by email, then either update the
existing share entry's role in place or append a new entry; finally emit
`noteUpdated` and `noteShared` to the note room, `notesListUpdated` as a
broadcast, and a `notification` of type `note_shared` to the target's
user room. -/
def shareNoteSC (users : List User) (note : Note) (actor : User)
    (body : ShareBody) (now : Nat) : Except ApiError (Note × List Event) :=
  match shareNoteSchemaValidate body with
  | none => Except.error ApiError.validationError
  | some (email, role) =>
    if checkPermissions note actor.id Role.write = false then
      Except.error ApiError.permissionDenied
    else if email = actor.email then
      Except.error ApiError.selfShare
    else
      match users.find? (fun u => decide (u.email = email)) with
      | none => Except.error ApiError.userNotFound
      | some target =>
        let newShared :=
          if note.sharedWith.any (fun s => decide (s.userId = target.id)) then
            setRoleFirst note.sharedWith target.id role
          else
            note.sharedWith ++ [⟨target.id, target.email, role⟩]
        let saved := saveNote note { note with sharedWith := newShared } now
        Except.ok (saved,
          [ ⟨Channel.noteRoom note.id, "noteUpdated", ""⟩,
            ⟨Channel.noteRoom note.id, "noteShared", ""⟩,
            ⟨Channel.broadcast, "notesListUpdated", ""⟩,
            ⟨Channel.userRoom target.id, "notification", "note_shared"⟩ ])

/-- `shareNote` of `noteController.ts`: validate, require `owner`
permission (creator only), look the target up by email, reject when the
target is the acting user, update role and email in place or append;
emit `noteShared` to the note room, `noteSharedWithYou` to the target,
`myNoteShareUpdated` to the actor, and a `notesListUpdated` broadcast. -/
def shareNoteNC (users : List User) (note : Note) (actor : User)
    (body : ShareBody) (now : Nat) : Except ApiError (Note × List Event) :=
  match shareNoteSchemaValidate body with
  | none => Except.error ApiError.validationError
  | some (email, role) =>
    if checkPermissions note actor.id Role.owner = false then
      Except.error ApiError.permissionDenied
    else
      match users.find? (fun u => decide (u.email = email)) with
      | none => Except.error ApiError.userNotFound
      | some target =>
        if target.id = actor.id then
          Except.error ApiError.selfShare
        else
          let newShared :=
            if note.sharedWith.any (fun s => decide (s.userId = target.id)) then
              setRoleEmailFirst note.sharedWith target.id role target.email
            else
              note.sharedWith ++ [⟨target.id, target.email, role⟩]
          let saved := saveNote note { note with sharedWith := newShared } now
          Except.ok (saved,
            [ ⟨Channel.noteRoom note.id, "noteShared", ""⟩,
              ⟨Channel.userRoom target.id, "noteSharedWithYou", ""⟩,
              ⟨Channel.userRoom actor.id, "myNoteShareUpdated", ""⟩,
              ⟨Channel.broadcast, "notesListUpdated", ""⟩ ])

/-- `unshareNote` of `noteShareController.ts`: the caller may proceed
when they are the note's creator or when they are removing themself
(`userIdToUnshare === authenticatedUserId`); the matching share entry is
spliced out; events: `noteUpdated` and `noteUnshared` to the note room, a
`notesListUpdated` broadcast, and a `notification` of type
`note_unshared` to the removed user's room. -/
def unshareNoteSC (note : Note) (actorId : Nat) (userIdToUnshare : Nat)
    (now : Nat) : Except ApiError (Note × List Event) :=
  if decide (note.creator = actorId) || decide (userIdToUnshare = actorId) then
    match note.sharedWith.findIdx? (fun s => decide (s.userId = userIdToUnshare)) with
    | none => Except.error ApiError.notShared
    | some i =>
      let newShared := note.sharedWith.eraseIdx i
      let saved := saveNote note { note with sharedWith := newShared } now
      Except.ok (saved,
        [ ⟨Channel.noteRoom note.id, "noteUpdated", ""⟩,
          ⟨Channel.noteRoom note.id, "noteUnshared", ""⟩,
          ⟨Channel.broadcast, "notesListUpdated", ""⟩,
          ⟨Channel.userRoom userIdToUnshare, "notification", "note_unshared"⟩ ])
  else
    Except.error ApiError.permissionDenied

/-- `unshareNote` of `noteController.ts`: requires `owner` permission
(creator only), resolves the target by email, filters the target out of
`sharedWith` and reports `notShared` when nothing was removed; events:
`noteUnshared` to the note room, `noteUnsharedWithYou` to the removed
user, `myNoteShareUpdated` to the actor, and a broadcast list update. -/
def unshareNoteNC (users : List User) (note : Note) (actorId : Nat)
    (emailToUnshare : String) (now : Nat) :
    Except ApiError (Note × List Event) :=
  if checkPermissions note actorId Role.owner = false then
    Except.error ApiError.permissionDenied
  else
    match users.find? (fun u => decide (u.email = emailToUnshare)) with
    | none => Except.error ApiError.userNotFound
    | some target =>
      let newShared := note.sharedWith.filter (fun s => !decide (s.userId = target.id))
      if newShared.length = note.sharedWith.length then
        Except.error ApiError.notShared
      else
        let saved := saveNote note { note with sharedWith := newShared } now
        Except.ok (saved,
          [ ⟨Channel.noteRoom note.id, "noteUnshared", ""⟩,
            ⟨Channel.userRoom target.id, "noteUnsharedWithYou", ""⟩,
            ⟨Channel.userRoom actorId, "myNoteShareUpdated", ""⟩,
            ⟨Channel.broadcast, "notesListUpdated", ""⟩ ])

/-- Validated body of an update request (`PUT /:id`), from
`updateNoteSchema` in `noteUtils.ts`: optional title, optional content,
optional `isAutoSave` flag. -/
structure UpdateBody where
  title : Option String
  content : Option String
  isAutoSave : Bool
deriving DecidableEq, Repr

/-- First-occurrence deduplication with an accumulator of already seen
ids, mirroring the insertion-order semantics of
`[...new Set(collaboratorsToNotify)]` in `noteCRUDController.updateNote`. -/
def eraseDupsFirstAux : List Nat → List Nat → List Nat
  | [], _ => []
  | x :: xs, seen =>
    if seen.contains x then eraseDupsFirstAux xs seen
    else x :: eraseDupsFirstAux xs (x :: seen)

/-- First-occurrence deduplication (`[...new Set(xs)]`). -/
def eraseDupsFirst (l : List Nat) : List Nat :=
  eraseDupsFirstAux l []

/-- Collaborator fan-out of `noteCRUDController.updateNote` for explicit
(non-autosave) saves: the creator (when not the actor) followed by every
share grantee other than the actor, deduplicated, each receiving a
`notifyNoteUpdatedByOther` event on their user room. -/
def updCollabEvents (note : Note) (actorId : Nat) : List Event :=
  let fromCreator := if !decide (note.creator = actorId) then [note.creator] else []
  let fromShares :=
    (note.sharedWith.filter (fun s => !decide (s.userId = actorId))).map
      (fun s => s.userId)
  (eraseDupsFirst (fromCreator ++ fromShares)).map
    (fun cid => ⟨Channel.userRoom cid, "notifyNoteUpdatedByOther", ""⟩)

/-- `updateNote` of `noteCRUDController.ts`: require `write` permission,
assign the provided title/content and save (no change classification and
no archived-state check exist in the handler); always emit
`notesListUpdated` to the note room and `noteUpdateSuccess` to the
actor's user room; when the request is not an autosave additionally emit
`notifyNoteUpdatedByOther` to every collaborator other than the actor. -/
def updateNoteCRUD (note : Note) (actor : User) (body : UpdateBody)
    (now : Nat) : Except ApiError (Note × List Event) :=
  if checkPermissions note actor.id Role.write = false then
    Except.error ApiError.permissionDenied
  else
    let note1 := { note with
      title := body.title.getD note.title,
      content := body.content.getD note.content }
    let saved := saveNote note note1 now
    let baseEvents : List Event :=
      [ ⟨Channel.noteRoom note.id, "notesListUpdated", ""⟩,
        ⟨Channel.userRoom actor.id, "noteUpdateSuccess", ""⟩ ]
    let collabEvents :=
      if body.isAutoSave then [] else updCollabEvents saved actor.id
    Except.ok (saved, baseEvents ++ collabEvents)

/-- `archiveNote` of the archive controller (`noteArchiveController.ts`):
requires `write` permission, rejects an already archived note, clears the
share list when the acting user is the creator, sets `isArchived` (the
handler never sets `archivedAt`), and emits `noteUpdated` to the note
room plus a `notesListUpdated` broadcast. -/
def archiveNoteAC (note : Note) (actorId : Nat) (now : Nat) :
    Except ApiError (Note × List Event) :=
  if checkPermissions note actorId Role.write = false then
    Except.error ApiError.permissionDenied
  else if note.isArchived then
    Except.error ApiError.alreadyArchived
  else
    let note1 := if note.creator = actorId then { note with sharedWith := [] } else note
    let saved := saveNote note { note1 with isArchived := true } now
    Except.ok (saved,
      [ ⟨Channel.noteRoom note.id, "noteUpdated", ""⟩,
        ⟨Channel.broadcast, "notesListUpdated", ""⟩ ])

/-- `unarchiveNote` of the archive controller: requires `write`
permission, rejects a note that is not archived, clears `isArchived`
(leaving `archivedAt` untouched, matching the handler), and emits the
same two events as archiving. -/
def unarchiveNoteAC (note : Note) (actorId : Nat) (now : Nat) :
    Except ApiError (Note × List Event) :=
  if checkPermissions note actorId Role.write = false then
    Except.error ApiError.permissionDenied
  else if !note.isArchived then
    Except.error ApiError.notArchived
  else
    let saved := saveNote note { note with isArchived := false } now
    Except.ok (saved,
      [ ⟨Channel.noteRoom note.id, "noteUpdated", ""⟩,
        ⟨Channel.broadcast, "notesListUpdated", ""⟩ ])

/-- `archiveNote` of `noteController.ts`: creator only; sets `isArchived`
and `archivedAt` to the current time; the socket emits in this handler
are commented out, so no events are produced. -/
def archiveNoteNC (note : Note) (actorId : Nat) (now : Nat) :
    Except ApiError (Note × List Event) :=
  if !decide (note.creator = actorId) then
    Except.error ApiError.permissionDenied
  else if note.isArchived then
    Except.error ApiError.alreadyArchived
  else
    let saved := saveNote note { note with isArchived := true, archivedAt := some now } now
    Except.ok (saved, [])

/-- `unarchiveNote` of `noteController.ts`: creator only; clears
`isArchived` and removes `archivedAt`; no events (emits are commented
out in the handler). -/
def unarchiveNoteNC (note : Note) (actorId : Nat) (now : Nat) :
    Except ApiError (Note × List Event) :=
  if !decide (note.creator = actorId) then
    Except.error ApiError.permissionDenied
  else if !note.isArchived then
    Except.error ApiError.notArchived
  else
    let saved := saveNote note { note with isArchived := false, archivedAt := none } now
    Except.ok (saved, [])

/-! Helper lemmas about the embedded operations. -/

theorem saveNote_title (old new : Note) (now : Nat) :
    (saveNote old new now).title = new.title := by
  unfold saveNote; split
  next h => rw [h]
  next => rfl

theorem saveNote_content (old new : Note) (now : Nat) :
    (saveNote old new now).content = new.content := by
  unfold saveNote; split
  next h => rw [h]
  next => rfl

theorem saveNote_creator (old new : Note) (now : Nat) :
    (saveNote old new now).creator = new.creator := by
  unfold saveNote; split
  next h => rw [h]
  next => rfl

theorem saveNote_sharedWith (old new : Note) (now : Nat) :
    (saveNote old new now).sharedWith = new.sharedWith := by
  unfold saveNote; split
  next h => rw [h]
  next => rfl

theorem saveNote_isArchived (old new : Note) (now : Nat) :
    (saveNote old new now).isArchived = new.isArchived := by
  unfold saveNote; split
  next h => rw [h]
  next => rfl

theorem saveNote_archivedAt (old new : Note) (now : Nat) :
    (saveNote old new now).archivedAt = new.archivedAt := by
  unfold saveNote; split
  next h => rw [h]
  next => rfl

theorem checkPermissions_owner_iff (note : Note) (uid : Nat) :
    checkPermissions note uid Role.owner = true ↔ note.creator = uid := by
  unfold checkPermissions
  by_cases h : note.creator = uid
  · simp [h]
  · simp [h]

theorem checkPermissions_congr (n1 n2 : Note) (uid : Nat) (req : Role)
    (hc : n1.creator = n2.creator) (hs : n1.sharedWith = n2.sharedWith) :
    checkPermissions n1 uid req = checkPermissions n2 uid req := by
  unfold checkPermissions; rw [hc, hs]

theorem mem_setRoleFirst {l : List Share} {uid : Nat} {r : Role} {s : Share}
    (h : s ∈ setRoleFirst l uid r) : s ∈ l ∨ (s.userId = uid ∧ s.role = r) := by
  induction l with
  | nil => simp [setRoleFirst] at h
  | cons a rest ih =>
    simp only [setRoleFirst] at h
    split at h
    next ha =>
      rcases List.mem_cons.mp h with h1 | h1
      · right; rw [h1]; exact ⟨ha, rfl⟩
      · left; exact List.mem_cons_of_mem _ h1
    next ha =>
      rcases List.mem_cons.mp h with h1 | h1
      · left; rw [h1]; exact List.mem_cons_self _ _
      · rcases ih h1 with h2 | h2
        · left; exact List.mem_cons_of_mem _ h2
        · right; exact h2

theorem mem_setRoleEmailFirst {l : List Share} {uid : Nat} {r : Role}
    {e : String} {s : Share}
    (h : s ∈ setRoleEmailFirst l uid r e) : s ∈ l ∨ s.userId = uid := by
  induction l with
  | nil => simp [setRoleEmailFirst] at h
  | cons a rest ih =>
    simp only [setRoleEmailFirst] at h
    split at h
    next ha =>
      rcases List.mem_cons.mp h with h1 | h1
      · right; rw [h1]; exact ha
      · left; exact List.mem_cons_of_mem _ h1
    next ha =>
      rcases List.mem_cons.mp h with h1 | h1
      · left; rw [h1]; exact List.mem_cons_self _ _
      · rcases ih h1 with h2 | h2
        · left; exact List.mem_cons_of_mem _ h2
        · right; exact h2

theorem countP_setRoleFirst (l : List Share) (uid : Nat) (r : Role) :
    (setRoleFirst l uid r).countP (fun s => decide (s.userId = uid)) =
      l.countP (fun s => decide (s.userId = uid)) := by
  induction l with
  | nil => rfl
  | cons a rest ih =>
    simp only [setRoleFirst]
    split
    next ha => simp [List.countP_cons, ha]
    next ha => simp [List.countP_cons, ha, ih]

theorem setRoleFirst_sets {l : List Share} {uid : Nat} (r : Role)
    (h : l.any (fun s => decide (s.userId = uid)) = true) :
    ∃ s ∈ setRoleFirst l uid r, s.userId = uid ∧ s.role = r := by
  induction l with
  | nil => simp at h
  | cons a rest ih =>
    simp only [setRoleFirst]
    by_cases ha : a.userId = uid
    · exact ⟨{ a with role := r }, by simp [ha], ha, rfl⟩
    · have h3 : rest.any (fun s => decide (s.userId = uid)) = true := by
        simpa [List.any_cons, ha] using h
      obtain ⟨s, hs, h1, h2⟩ := ih h3
      exact ⟨s, by simp [ha, hs], h1, h2⟩

theorem mem_eraseDupsFirstAux : ∀ (l seen : List Nat) (x : Nat),
    x ∈ eraseDupsFirstAux l seen → x ∈ l
  | [], _, _, h => by simp [eraseDupsFirstAux] at h
  | y :: ys, seen, x, h => by
    simp only [eraseDupsFirstAux] at h
    split at h
    · exact List.mem_cons_of_mem _ (mem_eraseDupsFirstAux ys seen x h)
    · rcases List.mem_cons.mp h with h1 | h1
      · rw [h1]; exact List.mem_cons_self _ _
      · exact List.mem_cons_of_mem _ (mem_eraseDupsFirstAux ys (y :: seen) x h1)

theorem mem_eraseDupsFirst {l : List Nat} {x : Nat}
    (h : x ∈ eraseDupsFirst l) : x ∈ l :=
  mem_eraseDupsFirstAux l [] x h

theorem eq_of_mem_id_eq {users : List User}
    (hp : users.Pairwise (fun a b => a.id ≠ b.id))
    {u v : User} (hu : u ∈ users) (hv : v ∈ users) (h : u.id = v.id) : u = v := by
  by_cases huv : u = v
  · exact huv
  · exact absurd h (List.Pairwise.forall (fun a b hab => (Ne.symm hab : _)) hp hu hv huv)

theorem validateRole {body : ShareBody} {e : String} {r : Role}
    (h : shareNoteSchemaValidate body = some (e, r)) :
    r = Role.read ∨ r = Role.write := by
  unfold shareNoteSchemaValidate at h
  split at h
  · left; cases h; rfl
  · split at h
    · right; cases h; rfl
    · cases h

theorem updCollabEvents_channel {note : Note} {actorId : Nat} {e : Event}
    (h : e ∈ updCollabEvents note actorId) :
    e.name = "notifyNoteUpdatedByOther" ∧
      ∃ cid, cid ≠ actorId ∧ e.channel = Channel.userRoom cid := by
  unfold updCollabEvents at h
  rcases List.mem_map.mp h with ⟨cid, hcid, he⟩
  refine ⟨by rw [← he], cid, ?_, by rw [← he]⟩
  have h2 := mem_eraseDupsFirst hcid
  rcases List.mem_append.mp h2 with h3 | h3
  · by_cases hc : note.creator = actorId
    · simp [hc] at h3
    · have h4 : cid = note.creator := by simpa [hc] using h3
      rw [h4]; exact hc
  · rcases List.mem_map.mp h3 with ⟨s, hs, hcid2⟩
    have h5 := (List.mem_filter.mp hs).2
    rw [← hcid2]
    simpa using h5

theorem find?_email {users : List User} {email : String} {target : User}
    (h : users.find? (fun u => decide (u.email = email)) = some target) :
    target ∈ users ∧ target.email = email := by
  have h2 := List.find?_some h
  exact ⟨List.mem_of_find?_eq_some h, of_decide_eq_true h2⟩

/-! Concrete fixtures used by witnesses and counterexamples. -/

/-- Demo user: creator of the demo notes. -/
def alice : User := ⟨1, "alice", "a@x.com"⟩

/-- Demo user: collaborator. -/
def bob : User := ⟨2, "bob", "b@x.com"⟩

/-- Demo user directory. -/
def demoUsers : List User := [alice, bob]

/-- Demo note created by alice, shared with bob at `write`. -/
def planNote : Note := ⟨10, "Plan", "v1", 1, [⟨2, "b@x.com", Role.write⟩], false, none, 100⟩

/-- Demo note created by alice, shared with bob at `read`. -/
def planNoteRead : Note := ⟨10, "Plan", "v1", 1, [⟨2, "b@x.com", Role.read⟩], false, none, 100⟩

/-- Demo note created by alice with an empty share list. -/
def planNoteUnshared : Note := ⟨10, "Plan", "v1", 1, [], false, none, 100⟩

/-- Demo note created by alice, shared with bob under the historical
`owner` share role. -/
def ownerShareNote : Note := ⟨11, "Doc", "C", 1, [⟨2, "b@x.com", Role.owner⟩], false, none, 100⟩

/-- Demo archived note created by alice. -/
def archivedNote : Note := ⟨13, "Doc", "C", 1, [], true, some 50, 100⟩

/-! Claim theorems. -/

/-- C1: permission resolution grants the creator every access level
regardless of the contents of the share list; for any non-creator a check
requiring the `owner` level returns false even when that user holds a
share entry whose role is `owner`; such a shared `owner` role still
satisfies a `write`-level check, i.e. it is capability-equivalent to
write and never to true ownership. -/
theorem C1_creator_owner_asymmetry (note : Note) (uid : Nat) (req : Role)
    (s : Share) :
    (uid = note.creator → checkPermissions note uid req = true) ∧
    (uid ≠ note.creator → checkPermissions note uid Role.owner = false) ∧
    (uid ≠ note.creator →
      note.sharedWith.find? (fun t => decide (t.userId = uid)) = some s →
      s.role = Role.owner → checkPermissions note uid Role.write = true) := by
  refine ⟨?_, ?_, ?_⟩
  · intro h; rw [h]; simp [checkPermissions]
  · intro h
    unfold checkPermissions
    rw [if_neg (fun hc => h hc.symm)]
    simp
  · intro h hf hr
    unfold checkPermissions
    rw [if_neg (fun hc => h hc.symm), if_neg (by decide : ¬ Role.write = Role.owner), hf]
    simp [hr]

/-- C1 witness: on a note whose creator is user 1 and which carries an
`owner`-role share entry for user 2, the creator passes the owner check,
user 2 fails it, and user 2 still passes the write check. -/
theorem C1_witness :
    checkPermissions ownerShareNote 1 Role.owner = true ∧
    checkPermissions ownerShareNote 2 Role.owner = false ∧
    checkPermissions ownerShareNote 2 Role.write = true :=
  ⟨(C1_creator_owner_asymmetry ownerShareNote 1 Role.owner ⟨2, "b@x.com", Role.owner⟩).1 (by decide),
   (C1_creator_owner_asymmetry ownerShareNote 2 Role.owner ⟨2, "b@x.com", Role.owner⟩).2.1 (by decide),
   (C1_creator_owner_asymmetry ownerShareNote 2 Role.write ⟨2, "b@x.com", Role.owner⟩).2.2
     (by decide) (by decide) rfl⟩

/-- C10: the share schema admits only the role strings `read` and
`write`, and every share entry that the share handler creates or updates
therefore carries role `read` or `write`: any entry of the resulting
share list is either an untouched entry of the original list or has one
of those two roles, so an `owner`-role share can never be granted
through the share endpoint even though the stored schema admits it. -/
theorem C10_share_roles_read_write (body : ShareBody) (users : List User)
    (note : Note) (actor : User) (now : Nat) (n2 : Note) (evs : List Event) :
    (∀ e r, shareNoteSchemaValidate body = some (e, r) →
      r = Role.read ∨ r = Role.write) ∧
    (shareNoteSC users note actor body now = Except.ok (n2, evs) →
      ∀ s ∈ n2.sharedWith,
        s ∈ note.sharedWith ∨ s.role = Role.read ∨ s.role = Role.write) := by
  constructor
  · intro e r h; exact validateRole h
  · intro hok s hs
    unfold shareNoteSC at hok
    split at hok
    · exact absurd hok (by simp)
    next email role hval =>
      split at hok
      · exact absurd hok (by simp)
      · split at hok
        · exact absurd hok (by simp)
        · split at hok
          · exact absurd hok (by simp)
          next target hfind =>
            have hn2 : n2.sharedWith =
                (if note.sharedWith.any (fun t => decide (t.userId = target.id)) then
                  setRoleFirst note.sharedWith target.id role
                else
                  note.sharedWith ++ [⟨target.id, target.email, role⟩]) := by
              have := congrArg (fun x : Except ApiError (Note × List Event) =>
                match x with
                | Except.ok p => p.1.sharedWith
                | Except.error _ => []) hok
              simpa [saveNote_sharedWith] using this.symm
            rw [hn2] at hs
            have hrole := validateRole hval
            split at hs
            · rcases mem_setRoleFirst hs with h1 | h1
              · exact Or.inl h1
              · rcases hrole with h2 | h2
                · exact Or.inr (Or.inl (h1.2.trans h2))
                · exact Or.inr (Or.inr (h1.2.trans h2))
            · rcases List.mem_append.mp hs with h1 | h1
              · exact Or.inl h1
              · have h2 : s = (⟨target.id, target.email, role⟩ : Share) := by
                  simpa using h1
                rcases hrole with h3 | h3
                · exact Or.inr (Or.inl (by rw [h2, h3]))
                · exact Or.inr (Or.inr (by rw [h2, h3]))

/-- C10 witness: re-sharing the demo note (bob already at `read`) as
`write` yields a share list whose every entry either was already present
or carries role read/write. -/
theorem C10_witness :
    ∀ s ∈ ({ planNoteRead with
        sharedWith := [⟨2, "b@x.com", Role.write⟩],
        updatedAt := 101 } : Note).sharedWith,
      s ∈ planNoteRead.sharedWith ∨ s.role = Role.read ∨ s.role = Role.write :=
  (C10_share_roles_read_write ⟨"b@x.com", "write"⟩ demoUsers planNoteRead alice 101
    { planNoteRead with sharedWith := [⟨2, "b@x.com", Role.write⟩], updatedAt := 101 }
    [ ⟨Channel.noteRoom 10, "noteUpdated", ""⟩,
      ⟨Channel.noteRoom 10, "noteShared", ""⟩,
      ⟨Channel.broadcast, "notesListUpdated", ""⟩,
      ⟨Channel.userRoom 2, "notification", "note_shared"⟩ ]).2 rfl

/-- C2 counterexample: the claim says sharing a note with its own creator
always fails, for every authorized acting user.  In
`noteShareController.shareNote` the only self-share guard compares the
target email with the ACTING user's email, so bob — a write-level sharee
of alice's note — can share the note with alice herself: the call
succeeds and alice's id (the creator) appears inside `sharedWith`. -/
theorem C2_counterexample :
    ((shareNoteSC demoUsers planNote bob ⟨"a@x.com", "read"⟩ 101).toOption.map
      (fun r => r.1.sharedWith.any (fun s => decide (s.userId = planNote.creator))))
      = some true := by
  decide

/-- C2 amended: sharing with the creator fails only when the acting user
is the creator themself (the guard compares emails with the actor), and
in the owner-gated `noteController.shareNote` variant no share entry for
the creator can ever be introduced; but in the write-gated
`noteShareController.shareNote` variant a non-creator write-level sharee
can add the creator to the share list (see the counterexample). -/
theorem C2_creator_share_amended (users : List User) (note : Note)
    (actor : User) (body : ShareBody) (now : Nat) (email : String) (r : Role)
    (n2 : Note) (evs : List Event) :
    (shareNoteSchemaValidate body = some (email, r) →
      email = actor.email →
      shareNoteSC users note actor body now = Except.error ApiError.selfShare ∨
      shareNoteSC users note actor body now = Except.error ApiError.permissionDenied) ∧
    (shareNoteNC users note actor body now = Except.ok (n2, evs) →
      (∀ s ∈ note.sharedWith, s.userId ≠ note.creator) →
      ∀ s ∈ n2.sharedWith, s.userId ≠ note.creator) := by
  constructor
  · intro hval hemail
    by_cases hp : checkPermissions note actor.id Role.write = false
    · right; simp [shareNoteSC, hval, hp]
    · left; simp [shareNoteSC, hval, hp, hemail]
  · intro hok hinv s hs
    unfold shareNoteNC at hok
    split at hok
    · exact absurd hok (by simp)
    next email2 role hval =>
      split at hok
      · exact absurd hok (by simp)
      next hperm =>
        split at hok
        · exact absurd hok (by simp)
        next target hfind =>
          split at hok
          · exact absurd hok (by simp)
          next hne =>
            have hcreator : note.creator = actor.id := by
              rcases Bool.eq_false_or_eq_true
                  (checkPermissions note actor.id Role.owner) with h | h
              · exact (checkPermissions_owner_iff note actor.id).mp h
              · exact absurd h hperm
            have htarget : target.id ≠ note.creator := by
              rw [hcreator]; exact hne
            have hn2 : n2.sharedWith =
                (if note.sharedWith.any (fun t => decide (t.userId = target.id)) then
                  setRoleEmailFirst note.sharedWith target.id role target.email
                else
                  note.sharedWith ++ [⟨target.id, target.email, role⟩]) := by
              have := congrArg (fun x : Except ApiError (Note × List Event) =>
                match x with
                | Except.ok p => p.1.sharedWith
                | Except.error _ => []) hok
              simpa [saveNote_sharedWith] using this.symm
            rw [hn2] at hs
            split at hs
            · rcases mem_setRoleEmailFirst hs with h1 | h1
              · exact hinv s h1
              · rw [h1]; exact htarget
            · rcases List.mem_append.mp hs with h1 | h1
              · exact hinv s h1
              · have h2 : s = (⟨target.id, target.email, role⟩ : Share) := by
                  simpa using h1
                rw [h2]; exact htarget

/-- C2 witness: alice sharing her own note with her own email is
rejected as a self-share, and a successful owner-gated share of the
demo note to bob leaves the creator out of the resulting share list. -/
theorem C2_witness :
    (shareNoteSC demoUsers planNoteUnshared alice ⟨"a@x.com", "read"⟩ 101 =
        Except.error ApiError.selfShare ∨
      shareNoteSC demoUsers planNoteUnshared alice ⟨"a@x.com", "read"⟩ 101 =
        Except.error ApiError.permissionDenied) ∧
    (∀ s ∈ ({ planNoteUnshared with
        sharedWith := [⟨2, "b@x.com", Role.read⟩],
        updatedAt := 101 } : Note).sharedWith,
      s.userId ≠ planNoteUnshared.creator) :=
  ⟨(C2_creator_share_amended demoUsers planNoteUnshared alice ⟨"a@x.com", "read"⟩ 101
      "a@x.com" Role.read planNoteUnshared []).1 rfl rfl,
   (C2_creator_share_amended demoUsers planNoteUnshared alice ⟨"b@x.com", "read"⟩ 101
      "b@x.com" Role.read
      { planNoteUnshared with sharedWith := [⟨2, "b@x.com", Role.read⟩], updatedAt := 101 }
      [ ⟨Channel.noteRoom 10, "noteShared", ""⟩,
        ⟨Channel.userRoom 2, "noteSharedWithYou", ""⟩,
        ⟨Channel.userRoom 1, "myNoteShareUpdated", ""⟩,
        ⟨Channel.broadcast, "notesListUpdated", ""⟩ ]).2 rfl (by decide)⟩

/-- C3 counterexample: the claim says an update whose proposed title and
content equal the stored values emits no notification event of any kind.
`noteCRUDController.updateNote` contains no change classification:
updating the demo note with its own title and content returns the
unchanged note (no write, `updatedAt` stays at 100) yet still emits
events — the note-room list update, the actor's success acknowledgment,
and (since this is not an autosave) a collaborator notification. -/
theorem C3_counterexample :
    ((updateNoteCRUD planNote alice
        ⟨some planNote.title, some planNote.content, false⟩ 101).toOption.map
      (fun r => (decide (r.1 = planNote), r.2.isEmpty))) = some (true, false) := by
  decide

/-- C3 amended: an update whose proposed title and content equal the
stored values performs no persistence write (the returned note is the
stored note, `updatedAt` untouched) and the caller still receives the
current note, but the operation is not notification-free: it always
emits the note-room list update and the actor's private success
acknowledgment, and on an explicit (non-autosave) save additionally the
collaborator notifications. -/
theorem C3_noop_update_amended (note : Note) (actor : User) (auto : Bool)
    (now : Nat)
    (hperm : checkPermissions note actor.id Role.write = true) :
    updateNoteCRUD note actor ⟨some note.title, some note.content, auto⟩ now =
      Except.ok (note,
        [ ⟨Channel.noteRoom note.id, "notesListUpdated", ""⟩,
          ⟨Channel.userRoom actor.id, "noteUpdateSuccess", ""⟩ ] ++
        (if auto then [] else updCollabEvents note actor.id)) := by
  have h1 : ¬ (checkPermissions note actor.id Role.write = false) := by
    simp [hperm]
  obtain ⟨i, t, c, cr, sw, ia, aa, ua⟩ := note
  rw [updateNoteCRUD, if_neg h1]
  simp [saveNote]

/-- C3 witness: alice saving the demo note with its stored title and
content gets the unchanged note back together with the list-update, the
success acknowledgment, and the collaborator notification for bob. -/
theorem C3_witness :
    updateNoteCRUD planNote alice
        ⟨some planNote.title, some planNote.content, false⟩ 101 =
      Except.ok (planNote,
        [ ⟨Channel.noteRoom planNote.id, "notesListUpdated", ""⟩,
          ⟨Channel.userRoom alice.id, "noteUpdateSuccess", ""⟩ ] ++
        (if false then [] else updCollabEvents planNote alice.id)) :=
  C3_noop_update_amended planNote alice false 101 (by decide)

/-- C4 counterexample: the claim says the recipients of recipient-facing
notification events never contain the acting user, for every mutation
kind.  `noteShareController.unshareNote` allows a user to remove
themself, and then emits the removed-user notification (`notification`
of type `note_unshared`, the "you lost access" event) to that user's own
channel: when bob (user 2) unshares himself from the demo note, the
acting user receives the recipient-facing event. -/
theorem C4_counterexample :
    ((unshareNoteSC planNote 2 2 101).toOption.map
      (fun r => decide
        ((⟨Channel.userRoom 2, "notification", "note_unshared"⟩ : Event) ∈ r.2)))
      = some true := by
  decide

/-- C4 amended: the actor-exclusion holds for updates (the collaborator
fan-out filters the actor out), for shares (the target is found by an
email different from the actor's, so under distinct user ids the target
is never the actor), and for unshares performed by the creator on
someone else; the exception the counterexample forces is self-unshare,
where the removed-user notification goes to the acting user themself. -/
theorem C4_no_self_notification_amended (users : List User) (note : Note)
    (actor : User) (body : UpdateBody) (sbody : ShareBody) (now : Nat)
    (target : Nat) (n2 n3 n4 : Note) (evs2 evs3 evs4 : List Event) :
    (updateNoteCRUD note actor body now = Except.ok (n2, evs2) →
      ∀ e ∈ evs2, e.name = "notifyNoteUpdatedByOther" →
        e.channel ≠ Channel.userRoom actor.id) ∧
    (users.Pairwise (fun a b => a.id ≠ b.id) → actor ∈ users →
      shareNoteSC users note actor sbody now = Except.ok (n3, evs3) →
      ∀ e ∈ evs3, e.ntype = "note_shared" →
        e.channel ≠ Channel.userRoom actor.id) ∧
    (note.creator = actor.id → target ≠ actor.id →
      unshareNoteSC note actor.id target now = Except.ok (n4, evs4) →
      ∀ e ∈ evs4, e.ntype = "note_unshared" →
        e.channel ≠ Channel.userRoom actor.id) := by
  refine ⟨?_, ?_, ?_⟩
  · intro hok e he hname
    unfold updateNoteCRUD at hok
    split at hok
    · exact absurd hok (by simp)
    next hperm =>
      simp only [Except.ok.injEq, Prod.mk.injEq] at hok
      rw [← hok.2] at he
      rcases List.mem_append.mp he with h1 | h1
      · rcases List.mem_cons.mp h1 with h2 | h2
        · rw [h2] at hname; simp at hname
        · rcases List.mem_cons.mp h2 with h3 | h3
          · rw [h3] at hname; simp at hname
          · simp at h3
      · split at h1
        · simp at h1
        · obtain ⟨_, cid, hcid, hch⟩ := updCollabEvents_channel h1
          rw [hch]
          intro hcontra
          exact hcid (Channel.userRoom.inj hcontra)
  · intro hp hmem hok e he hntype
    unfold shareNoteSC at hok
    split at hok
    · exact absurd hok (by simp)
    next email role hval =>
      split at hok
      · exact absurd hok (by simp)
      · split at hok
        · exact absurd hok (by simp)
        next hemail =>
          split at hok
          · exact absurd hok (by simp)
          next tgt hfind =>
            simp only [Except.ok.injEq, Prod.mk.injEq] at hok
            rw [← hok.2] at he
            have htid : tgt.id ≠ actor.id := by
              intro hid
              obtain ⟨htmem, htemail⟩ := find?_email hfind
              have : tgt = actor := eq_of_mem_id_eq hp htmem hmem hid
              exact hemail (htemail ▸ congrArg User.email this)
            rcases List.mem_cons.mp he with h1 | h1
            · rw [h1] at hntype; simp at hntype
            · rcases List.mem_cons.mp h1 with h2 | h2
              · rw [h2] at hntype; simp at hntype
              · rcases List.mem_cons.mp h2 with h3 | h3
                · rw [h3] at hntype; simp at hntype
                · have h4 : e =
                      (⟨Channel.userRoom tgt.id, "notification", "note_shared"⟩ : Event) := by
                    simpa using h3
                  rw [h4]
                  intro hcontra
                  exact htid (Channel.userRoom.inj hcontra)
  · intro hcreator htarget hok e he hntype
    unfold unshareNoteSC at hok
    split at hok
    · split at hok
      · exact absurd hok (by simp)
      next i hidx =>
        simp only [Except.ok.injEq, Prod.mk.injEq] at hok
        rw [← hok.2] at he
        rcases List.mem_cons.mp he with h1 | h1
        · rw [h1] at hntype; simp at hntype
        · rcases List.mem_cons.mp h1 with h2 | h2
          · rw [h2] at hntype; simp at hntype
          · rcases List.mem_cons.mp h2 with h3 | h3
            · rw [h3] at hntype; simp at hntype
            · have h4 : e =
                  (⟨Channel.userRoom target, "notification", "note_unshared"⟩ : Event) := by
                simpa using h3
              rw [h4]
              intro hcontra
              exact htarget (Channel.userRoom.inj hcontra)
    · exact absurd hok (by simp)

/-- C4 witness: bob's explicit update of the demo note notifies only
alice, alice sharing her unshared note with bob notifies only bob, and
alice unsharing bob notifies only bob — in each case the acting user's
channel carries no recipient-facing event. -/
theorem C4_witness :
    (∀ e ∈ [ (⟨Channel.noteRoom 10, "notesListUpdated", ""⟩ : Event),
        ⟨Channel.userRoom 2, "noteUpdateSuccess", ""⟩,
        ⟨Channel.userRoom 1, "notifyNoteUpdatedByOther", ""⟩ ],
      e.name = "notifyNoteUpdatedByOther" → e.channel ≠ Channel.userRoom bob.id) ∧
    (∀ e ∈ [ (⟨Channel.noteRoom 10, "noteUpdated", ""⟩ : Event),
        ⟨Channel.noteRoom 10, "noteShared", ""⟩,
        ⟨Channel.broadcast, "notesListUpdated", ""⟩,
        ⟨Channel.userRoom 2, "notification", "note_shared"⟩ ],
      e.ntype = "note_shared" → e.channel ≠ Channel.userRoom alice.id) ∧
    (∀ e ∈ [ (⟨Channel.noteRoom 10, "noteUpdated", ""⟩ : Event),
        ⟨Channel.noteRoom 10, "noteUnshared", ""⟩,
        ⟨Channel.broadcast, "notesListUpdated", ""⟩,
        ⟨Channel.userRoom 2, "notification", "note_unshared"⟩ ],
      e.ntype = "note_unshared" → e.channel ≠ Channel.userRoom alice.id) :=
  ⟨(C4_no_self_notification_amended demoUsers planNote bob ⟨none, some "v2", false⟩
      ⟨"b@x.com", "write"⟩ 101 2
      { planNote with content := "v2", updatedAt := 101 } planNote planNote
      [ ⟨Channel.noteRoom 10, "notesListUpdated", ""⟩,
        ⟨Channel.userRoom 2, "noteUpdateSuccess", ""⟩,
        ⟨Channel.userRoom 1, "notifyNoteUpdatedByOther", ""⟩ ] [] []).1 (by rfl),
   (C4_no_self_notification_amended demoUsers planNoteUnshared alice
      ⟨none, none, false⟩ ⟨"b@x.com", "write"⟩ 101 2
      planNote
      { planNoteUnshared with sharedWith := [⟨2, "b@x.com", Role.write⟩], updatedAt := 101 }
      planNote []
      [ ⟨Channel.noteRoom 10, "noteUpdated", ""⟩,
        ⟨Channel.noteRoom 10, "noteShared", ""⟩,
        ⟨Channel.broadcast, "notesListUpdated", ""⟩,
        ⟨Channel.userRoom 2, "notification", "note_shared"⟩ ] []).2.1
      (by decide) (by decide) rfl,
   (C4_no_self_notification_amended demoUsers planNote alice ⟨none, none, false⟩
      ⟨"b@x.com", "write"⟩ 101 2
      planNote planNote
      { planNote with sharedWith := [], updatedAt := 101 } [] []
      [ ⟨Channel.noteRoom 10, "noteUpdated", ""⟩,
        ⟨Channel.noteRoom 10, "noteUnshared", ""⟩,
        ⟨Channel.broadcast, "notesListUpdated", ""⟩,
        ⟨Channel.userRoom 2, "notification", "note_unshared"⟩ ]).2.2
      rfl (by decide) rfl⟩

/-- C5 counterexample: the claim says an autosave carrying a significant
change emits no note-room event.  When bob autosaves new content on the
demo note, `noteCRUDController.updateNote` still emits `notesListUpdated`
to the note room (that emit precedes the autosave branch), so a
note-room event is produced. -/
theorem C5_counterexample :
    ((updateNoteCRUD planNote bob ⟨none, some "v2", true⟩ 101).toOption.map
      (fun r => decide
        ((⟨Channel.noteRoom planNote.id, "notesListUpdated", ""⟩ : Event) ∈ r.2)))
      = some true := by
  decide

/-- C5 amended: an autosave with a significant change persists the
change, and its only events are the note-room list update and the
private success acknowledgment on the acting user's own channel; no
per-user collaborator notification (`notifyNoteUpdatedByOther`) is
emitted for an autosave. -/
theorem C5_autosave_amended (note : Note) (actor : User)
    (t c : Option String) (now : Nat)
    (hperm : checkPermissions note actor.id Role.write = true) :
    updateNoteCRUD note actor ⟨t, c, true⟩ now =
      Except.ok (saveNote note
          { note with title := t.getD note.title, content := c.getD note.content } now,
        [ ⟨Channel.noteRoom note.id, "notesListUpdated", ""⟩,
          ⟨Channel.userRoom actor.id, "noteUpdateSuccess", ""⟩ ]) := by
  have h1 : ¬ (checkPermissions note actor.id Role.write = false) := by
    simp [hperm]
  rw [updateNoteCRUD, if_neg h1]
  simp

/-- C5 witness: bob's autosave of new content on the demo note persists
the content and emits exactly the list update and his own success
acknowledgment. -/
theorem C5_witness :
    updateNoteCRUD planNote bob ⟨none, some "v2", true⟩ 101 =
      Except.ok (saveNote planNote
          { planNote with
            title := (none : Option String).getD planNote.title,
            content := (some "v2").getD planNote.content } 101,
        [ ⟨Channel.noteRoom planNote.id, "notesListUpdated", ""⟩,
          ⟨Channel.userRoom bob.id, "noteUpdateSuccess", ""⟩ ]) :=
  C5_autosave_amended planNote bob none (some "v2") 101 (by decide)

/-- C6 counterexample: the claim says that on a re-share changing bob's
role he receives a role-changed event rather than the new-grant event.
The handler emits the same single `notification` of type `note_shared`
in both branches: re-sharing bob (already at `read`) as `write` updates
the entry in place, yet the event delivered to bob's channel is
identical to the one emitted for a brand-new grant on the unshared note
— there is no distinct role-changed event. -/
theorem C6_counterexample :
    ((shareNoteSC demoUsers planNoteRead alice ⟨"b@x.com", "write"⟩ 101).toOption.map
      (fun r => (decide (r.1.sharedWith = [⟨2, "b@x.com", Role.write⟩]),
        r.2.filter (fun e => decide (e.channel = Channel.userRoom 2)))))
      = some (true, [⟨Channel.userRoom 2, "notification", "note_shared"⟩]) ∧
    ((shareNoteSC demoUsers planNoteUnshared alice ⟨"b@x.com", "write"⟩ 101).toOption.map
      (fun r => r.2.filter (fun e => decide (e.channel = Channel.userRoom 2))))
      = some [⟨Channel.userRoom 2, "notification", "note_shared"⟩] := by
  constructor
  · decide
  · decide

/-- C6 amended: re-sharing a note with an already shared user B under
role R replaces B's single share entry in place (exactly one entry for B
remains, carrying role R), and B receives exactly one per-user event —
the same `notification` of type `note_shared` that a new grant produces;
the handler has no distinct role-changed event, so B never receives two
events and never receives a role-change-specific one. -/
theorem C6_reshare_amended (users : List User) (note : Note) (actor : User)
    (body : ShareBody) (now : Nat) (email : String) (role : Role)
    (target : User) (n2 : Note) (evs : List Event)
    (hval : shareNoteSchemaValidate body = some (email, role))
    (hperm : checkPermissions note actor.id Role.write = true)
    (hemail : ¬ email = actor.email)
    (hfind : users.find? (fun u => decide (u.email = email)) = some target)
    (hcount : note.sharedWith.countP (fun s => decide (s.userId = target.id)) = 1)
    (hok : shareNoteSC users note actor body now = Except.ok (n2, evs)) :
    n2.sharedWith.countP (fun s => decide (s.userId = target.id)) = 1 ∧
    (∃ s ∈ n2.sharedWith, s.userId = target.id ∧ s.role = role) ∧
    evs.filter (fun e => decide (e.channel = Channel.userRoom target.id)) =
      [⟨Channel.userRoom target.id, "notification", "note_shared"⟩] := by
  have hany : note.sharedWith.any (fun s => decide (s.userId = target.id)) = true := by
    rw [List.any_eq_true]
    have hpos : 0 < note.sharedWith.countP (fun s => decide (s.userId = target.id)) := by
      rw [hcount]; exact Nat.one_pos
    exact List.countP_pos_iff.mp hpos
  have h1 : ¬ (checkPermissions note actor.id Role.write = false) := by
    simp [hperm]
  rw [shareNoteSC, hval] at hok
  simp only [h1, if_false, hemail, if_true, hfind, hany, if_pos] at hok
  rw [if_neg (by simp : ¬ (true : Bool) = false)] at hok
  simp only [Except.ok.injEq, Prod.mk.injEq] at hok
  refine ⟨?_, ?_, ?_⟩
  · rw [← hok.1, saveNote_sharedWith]
    exact (countP_setRoleFirst note.sharedWith target.id role).trans hcount
  · rw [← hok.1, saveNote_sharedWith]
    exact setRoleFirst_sets role hany
  · rw [← hok.2]
    simp

/-- C6 witness: re-sharing the demo note (bob at `read`) as `write`
leaves exactly one entry for bob, now with role `write`, and bob's
channel carries exactly the `note_shared` notification. -/
theorem C6_witness :
    ({ planNoteRead with
        sharedWith := [⟨2, "b@x.com", Role.write⟩],
        updatedAt := 101 } : Note).sharedWith.countP
          (fun s => decide (s.userId = bob.id)) = 1 ∧
    (∃ s ∈ ({ planNoteRead with
        sharedWith := [⟨2, "b@x.com", Role.write⟩],
        updatedAt := 101 } : Note).sharedWith,
      s.userId = bob.id ∧ s.role = Role.write) ∧
    ([ (⟨Channel.noteRoom 10, "noteUpdated", ""⟩ : Event),
       ⟨Channel.noteRoom 10, "noteShared", ""⟩,
       ⟨Channel.broadcast, "notesListUpdated", ""⟩,
       ⟨Channel.userRoom 2, "notification", "note_shared"⟩ ]).filter
        (fun e => decide (e.channel = Channel.userRoom bob.id)) =
      [⟨Channel.userRoom bob.id, "notification", "note_shared"⟩] :=
  C6_reshare_amended demoUsers planNoteRead alice ⟨"b@x.com", "write"⟩ 101
    "b@x.com" Role.write bob
    { planNoteRead with sharedWith := [⟨2, "b@x.com", Role.write⟩], updatedAt := 101 }
    [ ⟨Channel.noteRoom 10, "noteUpdated", ""⟩,
      ⟨Channel.noteRoom 10, "noteShared", ""⟩,
      ⟨Channel.broadcast, "notesListUpdated", ""⟩,
      ⟨Channel.userRoom 2, "notification", "note_shared"⟩ ]
    rfl (by decide) (by decide) (by decide) (by decide) rfl

/-- C7 counterexample: the claim says unshare succeeds only for the
creator, and that the removed user removing themself is rejected.
`noteShareController.unshareNote` explicitly allows self-removal: bob
(user 2, not the creator) unshares himself from the demo note and the
call succeeds, leaving the share list without him. -/
theorem C7_counterexample :
    ((unshareNoteSC planNote 2 2 101).toOption.map
      (fun r => decide (r.1.sharedWith = []))) = some true := by
  decide

/-- C7 amended: in `noteShareController.unshareNote` the operation
succeeds exactly for the creator or for a user removing themself; any
other non-creator caller is rejected with a permission error before the
share list is touched.  The `noteController.unshareNote` variant is
stricter: any success there implies the caller is the creator. -/
theorem C7_unshare_permission_amended (users : List User) (note : Note)
    (actorId target : Nat) (email : String) (now : Nat) (i : Nat)
    (n2 : Note) (evs : List Event) :
    (actorId ≠ note.creator → actorId ≠ target →
      unshareNoteSC note actorId target now =
        Except.error ApiError.permissionDenied) ∧
    (note.sharedWith.findIdx? (fun s => decide (s.userId = actorId)) = some i →
      (unshareNoteSC note actorId actorId now).isOk = true) ∧
    (unshareNoteNC users note actorId email now = Except.ok (n2, evs) →
      note.creator = actorId) := by
  refine ⟨?_, ?_, ?_⟩
  · intro hc ht
    have hc2 : ¬ note.creator = actorId := fun h => hc h.symm
    have ht2 : ¬ target = actorId := fun h => ht h.symm
    have h1 : (decide (note.creator = actorId) ||
        decide (target = actorId)) = false := by
      simp [hc2, ht2]
    rw [unshareNoteSC, if_neg (by simp [h1])]
  · intro hidx
    rw [unshareNoteSC, if_pos (by simp)]
    rw [hidx]
    rfl
  · intro hok
    unfold unshareNoteNC at hok
    split at hok
    · exact absurd hok (by simp)
    next hperm =>
      rcases Bool.eq_false_or_eq_true
          (checkPermissions note actorId Role.owner) with h | h
      · exact (checkPermissions_owner_iff note actorId).mp h
      · exact absurd h hperm

/-- C7 witness: carol (user 3, neither creator nor target) cannot
unshare bob; bob can remove himself; and the owner-gated variant used by
alice to unshare bob succeeds precisely because she is the creator. -/
theorem C7_witness :
    unshareNoteSC planNote 3 2 101 = Except.error ApiError.permissionDenied ∧
    (unshareNoteSC planNote 2 2 101).isOk = true ∧
    planNote.creator = 1 :=
  ⟨(C7_unshare_permission_amended demoUsers planNote 3 2 "b@x.com" 101 0
      planNote []).1 (by decide) (by decide),
   (C7_unshare_permission_amended demoUsers planNote 2 2 "b@x.com" 101 0
      planNote []).2.1 (by decide),
   (C7_unshare_permission_amended demoUsers planNote 1 2 "b@x.com" 101 0
      { planNote with sharedWith := [], updatedAt := 101 }
      [ ⟨Channel.noteRoom 10, "noteUnshared", ""⟩,
        ⟨Channel.userRoom 2, "noteUnsharedWithYou", ""⟩,
        ⟨Channel.userRoom 1, "myNoteShareUpdated", ""⟩,
        ⟨Channel.broadcast, "notesListUpdated", ""⟩ ]).2.2 (by rfl)⟩

/-- C8 counterexample: the claim says an archived note rejects every
title/content mutation.  `noteCRUDController.updateNote` has no
archived-state check: alice updates the title of her archived note and
the mutation is accepted and persisted while the note stays archived. -/
theorem C8_counterexample :
    ((updateNoteCRUD archivedNote alice ⟨some "T2", none, false⟩ 101).toOption.map
      (fun r => (decide (r.1.title = "T2"), r.1.isArchived))) = some (true, true) := by
  decide

/-- C8 amended: the update handler performs no archived-state check; an
archived note accepts title and content mutations from any user with
write permission exactly as an active note does, and the mutation is
persisted while `isArchived` remains true. -/
theorem C8_archived_update_amended (note : Note) (actor : User)
    (body : UpdateBody) (now : Nat) (n2 : Note) (evs : List Event)
    (harch : note.isArchived = true)
    (hperm : checkPermissions note actor.id Role.write = true) :
    (updateNoteCRUD note actor body now).isOk = true ∧
    (updateNoteCRUD note actor body now = Except.ok (n2, evs) →
      n2.title = body.title.getD note.title ∧
      n2.content = body.content.getD note.content ∧
      n2.isArchived = true) := by
  have h1 : ¬ (checkPermissions note actor.id Role.write = false) := by
    simp [hperm]
  constructor
  · rw [updateNoteCRUD, if_neg h1]; rfl
  · intro hok
    rw [updateNoteCRUD, if_neg h1] at hok
    simp only [Except.ok.injEq, Prod.mk.injEq] at hok
    refine ⟨?_, ?_, ?_⟩
    · rw [← hok.1, saveNote_title]
    · rw [← hok.1, saveNote_content]
    · rw [← hok.1, saveNote_isArchived]; exact harch

/-- C8 witness: alice's title change on her archived demo note is
accepted, persists the new title and content, and leaves the note
archived. -/
theorem C8_witness :
    (updateNoteCRUD archivedNote alice ⟨some "T2", none, false⟩ 101).isOk = true ∧
    (updateNoteCRUD archivedNote alice ⟨some "T2", none, false⟩ 101 =
        Except.ok ({ archivedNote with title := "T2", updatedAt := 101 },
          [ ⟨Channel.noteRoom 13, "notesListUpdated", ""⟩,
            ⟨Channel.userRoom 1, "noteUpdateSuccess", ""⟩ ]) →
      ({ archivedNote with title := "T2", updatedAt := 101 } : Note).title =
          (some "T2").getD archivedNote.title ∧
        ({ archivedNote with title := "T2", updatedAt := 101 } : Note).content =
          (none : Option String).getD archivedNote.content ∧
        ({ archivedNote with title := "T2", updatedAt := 101 } : Note).isArchived = true) :=
  C8_archived_update_amended archivedNote alice ⟨some "T2", none, false⟩ 101
    { archivedNote with title := "T2", updatedAt := 101 }
    [ ⟨Channel.noteRoom 13, "notesListUpdated", ""⟩,
      ⟨Channel.userRoom 1, "noteUpdateSuccess", ""⟩ ]
    (by decide) (by decide)

/-- C9 counterexample: the claim says archive-then-unarchive leaves every
other field, including the share list, unchanged.  In the archive
controller, a creator-initiated archive clears `sharedWith`, and
unarchiving does not restore it: alice archives and immediately
unarchives the demo note (shared with bob) and the final share list is
empty, not the original one. -/
theorem C9_counterexample :
    (((archiveNoteAC planNote 1 101).toOption.bind
        (fun r => (unarchiveNoteAC r.1 1 102).toOption)).map
      (fun r => r.1.sharedWith)) = some [] ∧ planNote.sharedWith ≠ [] := by
  constructor
  · decide
  · decide

/-- C9 amended: the round trip restores `isArchived = false`; in the
`noteController` variant (creator-only) it also restores
`archivedAt = none` and preserves title, content, share list and creator
(`updatedAt` is bumped by the two saves); in the archive-controller
variant the same preservation holds for a non-creator (write-level)
actor, whose archive never touches `archivedAt` — but a
creator-initiated archive there clears the share list, which unarchive
does not restore (see the counterexample). -/
theorem C9_archive_roundtrip_amended (note : Note) (actorId t1 t2 : Nat)
    (nA nU nB nV : Note) (eA eU eB eV : List Event) :
    (note.isArchived = false →
      archiveNoteNC note note.creator t1 = Except.ok (nA, eA) →
      unarchiveNoteNC nA note.creator t2 = Except.ok (nU, eU) →
      nU.isArchived = false ∧ nU.archivedAt = none ∧
      nU.title = note.title ∧ nU.content = note.content ∧
      nU.sharedWith = note.sharedWith ∧ nU.creator = note.creator) ∧
    (note.creator ≠ actorId → note.isArchived = false →
      checkPermissions note actorId Role.write = true →
      archiveNoteAC note actorId t1 = Except.ok (nB, eB) →
      unarchiveNoteAC nB actorId t2 = Except.ok (nV, eV) →
      nV.isArchived = false ∧ nV.archivedAt = note.archivedAt ∧
      nV.title = note.title ∧ nV.content = note.content ∧
      nV.sharedWith = note.sharedWith ∧ nV.creator = note.creator) := by
  constructor
  · intro harch hA hU
    rw [archiveNoteNC, if_neg (by simp), if_neg (by simp [harch])] at hA
    simp only [Except.ok.injEq, Prod.mk.injEq] at hA
    have hAc : nA.creator = note.creator := by
      rw [← hA.1, saveNote_creator]
    have hAa : nA.isArchived = true := by
      rw [← hA.1, saveNote_isArchived]
    rw [unarchiveNoteNC, if_neg (by simp [hAc]), if_neg (by simp [hAa])] at hU
    simp only [Except.ok.injEq, Prod.mk.injEq] at hU
    refine ⟨?_, ?_, ?_, ?_, ?_, ?_⟩
    · rw [← hU.1, saveNote_isArchived]
    · rw [← hU.1, saveNote_archivedAt]
    · rw [← hU.1, saveNote_title]; rw [← hA.1, saveNote_title]
    · rw [← hU.1, saveNote_content]; rw [← hA.1, saveNote_content]
    · rw [← hU.1, saveNote_sharedWith]; rw [← hA.1, saveNote_sharedWith]
    · rw [← hU.1, saveNote_creator]; exact hAc
  · intro hne harch hperm hA hU
    have h1 : ¬ (checkPermissions note actorId Role.write = false) := by
      simp [hperm]
    rw [archiveNoteAC, if_neg h1, if_neg (by simp [harch])] at hA
    simp only [hne, if_false] at hA
    simp only [Except.ok.injEq, Prod.mk.injEq] at hA
    have hBc : nB.creator = note.creator := by
      rw [← hA.1, saveNote_creator]
    have hBs : nB.sharedWith = note.sharedWith := by
      rw [← hA.1, saveNote_sharedWith]
    have hBa : nB.isArchived = true := by
      rw [← hA.1, saveNote_isArchived]
    have hperm2 : ¬ (checkPermissions nB actorId Role.write = false) := by
      rw [checkPermissions_congr nB note actorId Role.write hBc hBs]
      simp [hperm]
    rw [unarchiveNoteAC, if_neg hperm2, if_neg (by simp [hBa])] at hU
    simp only [Except.ok.injEq, Prod.mk.injEq] at hU
    refine ⟨?_, ?_, ?_, ?_, ?_, ?_⟩
    · rw [← hU.1, saveNote_isArchived]
    · rw [← hU.1, saveNote_archivedAt]; rw [← hA.1, saveNote_archivedAt]
    · rw [← hU.1, saveNote_title]; rw [← hA.1, saveNote_title]
    · rw [← hU.1, saveNote_content]; rw [← hA.1, saveNote_content]
    · rw [← hU.1, saveNote_sharedWith]; exact hBs
    · rw [← hU.1, saveNote_creator]; exact hBc

/-- C9 witness: the creator-only round trip on the demo note restores the
archive state and preserves the other fields, and so does the
archive-controller round trip when performed by bob, a non-creator
write-level sharee. -/
theorem C9_witness :
    (({ planNote with updatedAt := 102 } : Note).isArchived = false ∧
      ({ planNote with updatedAt := 102 } : Note).archivedAt = none ∧
      ({ planNote with updatedAt := 102 } : Note).title = planNote.title ∧
      ({ planNote with updatedAt := 102 } : Note).content = planNote.content ∧
      ({ planNote with updatedAt := 102 } : Note).sharedWith = planNote.sharedWith ∧
      ({ planNote with updatedAt := 102 } : Note).creator = planNote.creator) ∧
    (({ planNote with updatedAt := 102 } : Note).isArchived = false ∧
      ({ planNote with updatedAt := 102 } : Note).archivedAt = planNote.archivedAt ∧
      ({ planNote with updatedAt := 102 } : Note).title = planNote.title ∧
      ({ planNote with updatedAt := 102 } : Note).content = planNote.content ∧
      ({ planNote with updatedAt := 102 } : Note).sharedWith = planNote.sharedWith ∧
      ({ planNote with updatedAt := 102 } : Note).creator = planNote.creator) :=
  ⟨(C9_archive_roundtrip_amended planNote 2 101 102
      { planNote with isArchived := true, archivedAt := some 101, updatedAt := 101 }
      { planNote with updatedAt := 102 }
      { planNote with isArchived := true, updatedAt := 101 }
      { planNote with updatedAt := 102 } [] [] [] []).1
      (by decide) (by rfl) (by rfl),
   (C9_archive_roundtrip_amended planNote 2 101 102
      { planNote with isArchived := true, archivedAt := some 101, updatedAt := 101 }
      { planNote with updatedAt := 102 }
      { planNote with isArchived := true, updatedAt := 101 }
      { planNote with updatedAt := 102 }
      [] [] [ ⟨Channel.noteRoom 10, "noteUpdated", ""⟩,
        ⟨Channel.broadcast, "notesListUpdated", ""⟩ ]
      [ ⟨Channel.noteRoom 10, "noteUpdated", ""⟩,
        ⟨Channel.broadcast, "notesListUpdated", ""⟩ ]).2
      (by decide) (by decide) (by decide) (by rfl) (by rfl)⟩

end WaveNet
